import Mathlib

/-!
Shallow embedding of the deployment orchestration of the
`nodejs-ansible-deploy` repository.

The orchestrator consists of three Ansible playbooks:

* `ansible/rolling-update.yml` — the serial rolling update
  (`serial: 1`, per-host backup, health gate with `retries`/`delay`,
  a `rollback on failure` handler block, and a backup-retention
  `post_tasks` section);
* `ansible/disaster-recovery.yml` — the out-of-band restore from an
  explicitly supplied backup file;
* the initial deployment playbook (`deploy.yml`, `src/unnamed/part_004`)
  whose backup task is guarded by `backup_before_deploy` and
  `ignore_errors: yes`.

Each playbook is embedded as a function from an environment — the
outcomes of the external operations the playbook performs (archive
creation, service control, HTTP health probes, file stats) — to the
ordered list of executed actions together with the resulting outcome
and backup store.  Ansible control flow is modelled faithfully: a
failed task ends the host's play (remaining tasks, handlers and
post_tasks are skipped), `ignore_errors: yes` lets the play continue,
`when:` guards skip tasks, handlers run at flush points only for hosts
that were notified and did not fail, and `serial: 1` runs the whole
play — post_tasks included — once per one-host batch, aborting the
remaining batches when the current batch's host fails.
-/

namespace NodeDeploy

/-! ## Constants from the playbook `vars` sections -/

/-- `health_check_retries: 10` in `rolling-update.yml`. -/
def healthCheckRetries : Nat := 10

/-- `health_check_delay: 30` in `rolling-update.yml`. -/
def healthCheckDelay : Nat := 30

/-- `retries: 5` on the `Verify rollback` task of the
`rollback on failure` handler in `rolling-update.yml`. -/
def rollbackVerifyRetries : Nat := 5

/-- `delay: 10` on the `Verify rollback` task. -/
def rollbackVerifyDelay : Nat := 10

/-- `retries: 10` on the `Verify recovery success` task of
`disaster-recovery.yml`. -/
def drVerifyRetries : Nat := 10

/-- `delay: 10` on the `Verify recovery success` task. -/
def drVerifyDelay : Nat := 10

/-- `age: "7d"` on the `Clean up old backups` find task: the Ansible
`find` module selects files whose age is equal to or greater than the
given time. -/
def retentionAgeDays : Nat := 7

/-! ## Health gate

A host's health endpoint behaviour is a stream of HTTP status codes:
attempt `i` (0-based) observes status `probes i`.  An Ansible task with
`until: health_check.status == 200` runs once and then retries up to
`retries` times, so the budget is `retries + 1` attempts, separated by
the fixed `delay` (no backoff).  The loop stops at the first response
whose status is exactly `200`. -/

/-- First attempt index at or after `i`, within the remaining fuel,
whose probe status is exactly `200`; `none` when the fuel is exhausted
without a `200`.  Embeds the `until: health_check.status == 200`
retry loop. -/
def firstOkFrom (probes : Nat → Nat) (i : Nat) : Nat → Option Nat
  | 0 => none
  | fuel + 1 => if probes i = 200 then some i else firstOkFrom probes (i + 1) fuel

/-- The attempts actually made by the retry loop: it always makes
attempt `i`, and continues only while the status is not `200`. -/
def attemptsFrom (probes : Nat → Nat) (i : Nat) : Nat → List Nat
  | 0 => []
  | fuel + 1 => i :: (if probes i = 200 then [] else attemptsFrom probes (i + 1) fuel)

/-- The `Health check after update` task: budget `health_check_retries + 1`
attempts.  Returns the attempt index of the first `200`, else `none`
(the task fails and the host is classified unhealthy). -/
def healthGate (probes : Nat → Nat) : Option Nat :=
  firstOkFrom probes 0 (healthCheckRetries + 1)

/-- The `Verify rollback` task of the rollback handler: its own budget
of `retries: 5`, `delay: 10`. -/
def rollbackVerifyGate (probes : Nat → Nat) : Option Nat :=
  firstOkFrom probes 0 (rollbackVerifyRetries + 1)

/-- The `Verify recovery success` task of `disaster-recovery.yml`:
`retries: 10`, `delay: 10`. -/
def drVerifyGate (probes : Nat → Nat) : Option Nat :=
  firstOkFrom probes 0 (drVerifyRetries + 1)

/-- The delay before each retry of the forward health gate is the
constant `health_check_delay` — there is no backoff schedule in the
task, `delay: 30` is a single fixed value. -/
def healthCheckDelaySchedule : Nat → Nat := fun _ => healthCheckDelay

/-! ## Backup store and retention

Backups live in `backup_dir` (`/opt/backups`) on each host.  The file
names produced by the playbooks are
`nodejs-ansible-deploy-pre-update-<epoch>.tar.gz` (rolling update),
`nodejs-ansible-deploy-<epoch>.tar.gz` (initial deployment) and
`nodejs-ansible-deploy-pre-recovery-<epoch>.tar.gz` (disaster
recovery); any other file in the directory is `other`. -/

/-- Shape of a file name in the backup directory. -/
inductive BackupName
  | preUpdate (epoch : Nat)
  | deploySnap (epoch : Nat)
  | preRecovery (epoch : Nat)
  | other (id : Nat)
  deriving DecidableEq, Repr

/-- Whether a file name matches the `find` pattern
`nodejs-ansible-deploy-*.tar.gz` of the cleanup task: all three backup
name shapes do, non-backup files do not. -/
def matchesBackupPattern : BackupName → Bool
  | BackupName.other _ => false
  | _ => true

/-- A file in the backup directory: its name and its age in days. -/
structure Backup where
  name : BackupName
  ageDays : Nat
  deriving DecidableEq, Repr

/-- The selection predicate of the `Clean up old backups` find task:
pattern `nodejs-ansible-deploy-*.tar.gz`, `age: "7d"` (equal or
older). -/
def oldBackup (b : Backup) : Bool :=
  matchesBackupPattern b.name && decide (retentionAgeDays ≤ b.ageDays)

/-- `Clean up old backups`: `find` registers every matching old file. -/
def findOldBackups (bs : List Backup) : List Backup :=
  bs.filter oldBackup

/-- `Remove old backups`: `file: state=absent` on every found item.
The store keeps exactly the files the find task did not select. -/
def removeOldBackups (bs : List Backup) : List Backup :=
  bs.filter (fun b => decide (b ∉ findOldBackups bs))

/-- The most recent backup of a store: the one with the least age. -/
def newestBackup (bs : List Backup) : Option Backup :=
  bs.foldl
    (fun acc b =>
      match acc with
      | none => some b
      | some c => if b.ageDays < c.ageDays then some b else some c)
    none

/-! ## One host of the rolling update (`rolling-update.yml`)

The per-host environment fixes the outcome of every fallible external
operation the play performs.  Tasks whose module merely waits or prints
(`wait_for: timeout`, `debug`) always succeed; tasks guarded by
`ignore_errors: yes` (the load-balancer calls) cannot fail the play and
need no flag. -/

/-- Environment of one host during a rolling update. -/
structure HostEnv where
  /-- `ansible_date_time.epoch` when the play runs on this host. -/
  epoch : Nat
  /-- Contents of `/opt/backups` on this host before the play. -/
  backups : List Backup
  /-- Whether `load_balancer_host` is defined (the `when:` guard on
  both `uri` load-balancer tasks). -/
  lbDefined : Bool
  /-- `Create backup before update` (`archive`) succeeds. -/
  backupOk : Bool
  /-- `Stop application service` succeeds. -/
  stopOk : Bool
  /-- `Update application files` / `Update source directory` succeed. -/
  copyOk : Bool
  /-- `Update npm dependencies` succeeds. -/
  npmOk : Bool
  /-- `Start application service` succeeds. -/
  startOk : Bool
  /-- `Wait for application to be ready` (port wait) succeeds. -/
  portWaitOk : Bool
  /-- Status code returned by `GET /health` on attempt `i`. -/
  probes : Nat → Nat
  /-- Status codes the `Verify rollback` handler task would observe. -/
  rollbackProbes : Nat → Nat

/-- Executed steps of the rolling-update play, in source order. -/
inductive Action
  | createBackup
  | lbRemove
  | drainWait
  | stopService
  | copyAppFiles
  | copySrcDir
  | npmUpdate
  | startService
  | portWait
  | healthProbe (attempt : Nat)
  | lbAdd
  | updateDebug
  | cleanupFind
  | removeBackup (b : Backup)
  | rollbackStop
  | rollbackRestore
  | rollbackStart
  | rollbackVerifyProbe (attempt : Nat)
  | rollbackDebug
  deriving DecidableEq, Repr

/-- Final state of one host after its batch of the play. -/
inductive HostOutcome
  | Committed
  | RolledBack
  | Unhealthy
  | Failed
  deriving DecidableEq, Repr

/-- Result of one host's batch: executed actions, final host state,
and the final contents of the host's backup directory. -/
structure HostRun where
  trace : List Action
  outcome : HostOutcome
  backups : List Backup
  deriving Repr

/-- Actions of the `rollback on failure` handler block: stop the
failed service, `unarchive` the pre-update backup over `/`, restart,
re-probe `/health` with the handler's own `retries: 5`/`delay: 10`
budget, and print the rollback notification. -/
def rollbackHandlerActions (env : HostEnv) : List Action :=
  [Action.rollbackStop, Action.rollbackRestore, Action.rollbackStart]
    ++ (attemptsFrom env.rollbackProbes 0 (rollbackVerifyRetries + 1)).map
        Action.rollbackVerifyProbe
    ++ [Action.rollbackDebug]

/-- Handler names notified by tasks of `rolling-update.yml`.  No task
in the play carries a `notify:` key, so the set is empty — the
`rollback on failure` handler can never be triggered. -/
def rollingNotified : List String := []

/-- Flushing handlers for a (non-failed) host: a handler block runs
when its name was notified and its `when:` guard holds.  The guard of
`rollback on failure` is `health_check.status != 200`, i.e. the health
gate found no `200`. -/
def handlerFlush (notified : List String) (env : HostEnv) : List Action :=
  if notified.contains "rollback on failure" && (healthGate env.probes).isNone then
    rollbackHandlerActions env
  else []

/-- One host's batch of the rolling update, in task order:
`Create backup before update` (no `ignore_errors` — its failure ends
the host's play at once), `Remove server from load balancer`
(`ignore_errors`, guarded by `load_balancer_host is defined`),
`Wait for connections to drain`, `Stop application service`,
`Update application files`, `Update source directory`,
`Update npm dependencies`, `Start application service`,
`Wait for application to be ready`, `Health check after update`
(retry loop), `Add server back to load balancer`,
`Verify update success`; then the handler flush (empty: nothing is
ever notified) and the `post_tasks` retention sweep.  A failed task
removes the host from the play: everything after it, handlers and
post_tasks included, is skipped. -/
def runHostPlay (env : HostEnv) : HostRun :=
  if env.backupOk = false then
    { trace := [Action.createBackup], outcome := HostOutcome.Failed,
      backups := env.backups }
  else
    let bs1 : List Backup :=
      { name := BackupName.preUpdate env.epoch, ageDays := 0 } :: env.backups
    let pre : List Action :=
      [Action.createBackup]
        ++ (if env.lbDefined then [Action.lbRemove] else [])
        ++ [Action.drainWait]
    if env.stopOk = false then
      { trace := pre ++ [Action.stopService], outcome := HostOutcome.Failed,
        backups := bs1 }
    else if env.copyOk = false then
      { trace := pre ++ [Action.stopService, Action.copyAppFiles],
        outcome := HostOutcome.Failed, backups := bs1 }
    else if env.npmOk = false then
      { trace := pre ++ [Action.stopService, Action.copyAppFiles,
          Action.copySrcDir, Action.npmUpdate],
        outcome := HostOutcome.Failed, backups := bs1 }
    else if env.startOk = false then
      { trace := pre ++ [Action.stopService, Action.copyAppFiles,
          Action.copySrcDir, Action.npmUpdate, Action.startService],
        outcome := HostOutcome.Failed, backups := bs1 }
    else if env.portWaitOk = false then
      { trace := pre ++ [Action.stopService, Action.copyAppFiles,
          Action.copySrcDir, Action.npmUpdate, Action.startService,
          Action.portWait],
        outcome := HostOutcome.Failed, backups := bs1 }
    else
      let body : List Action :=
        pre ++ [Action.stopService, Action.copyAppFiles, Action.copySrcDir,
          Action.npmUpdate, Action.startService, Action.portWait]
      let hc : List Action :=
        (attemptsFrom env.probes 0 (healthCheckRetries + 1)).map Action.healthProbe
      match healthGate env.probes with
      | some _ =>
          { trace := body ++ hc
              ++ (if env.lbDefined then [Action.lbAdd] else [])
              ++ [Action.updateDebug]
              ++ handlerFlush rollingNotified env
              ++ [Action.cleanupFind]
              ++ (findOldBackups bs1).map Action.removeBackup,
            outcome := HostOutcome.Committed,
            backups := removeOldBackups bs1 }
      | none =>
          -- the health task exhausted its budget and failed: the host
          -- is failed, handlers and post_tasks do not run for it
          { trace := body ++ hc, outcome := HostOutcome.Unhealthy,
            backups := bs1 }

/-! ## The serial fleet (`serial: 1`)

`serial: 1` splits the play into one-host batches; each batch runs the
complete play.  When the batch's only host fails, 100% of the batch
failed, so Ansible ends the play: the remaining batches never start. -/

/-- Global trace of a serial rollout: host-tagged actions, batches in
inventory order, stopping after the first batch whose host did not
commit. -/
def serialTraceGo : List HostEnv → List (Nat × Action)
  | [] => []
  | e :: rest =>
    let r := runHostPlay e
    r.trace.map (fun a => (0, a))
      ++ (if r.outcome = HostOutcome.Committed then
            (serialTraceGo rest).map (fun x => (x.1 + 1, x.2))
          else [])

/-- Global trace of the rolling update across the inventory. -/
def runSerialTrace (envs : List HostEnv) : List (Nat × Action) :=
  serialTraceGo envs

/-- Final outcome of every host of a serial rollout; `none` for a host
whose batch never started because an earlier batch failed. -/
def serialOutcomes : List HostEnv → List (Option HostOutcome)
  | [] => []
  | e :: rest =>
    let r := runHostPlay e
    if r.outcome = HostOutcome.Committed then
      some HostOutcome.Committed :: serialOutcomes rest
    else
      some r.outcome :: List.replicate rest.length none

/-! ## Per-host lifecycle states over time

The spec names per-host states `Pending`, `Draining`, `Updating`,
`Verifying`, terminal `Committed` / `RolledBack` / `Unhealthy` /
`Failed`.  On the play they correspond to task spans: backup and
load-balancer removal and drain (`Draining`), stop through port wait
(`Updating`), the health retry loop (`Verifying`). -/

/-- Per-host lifecycle state. -/
inductive HostState
  | Pending
  | Draining
  | Updating
  | Verifying
  | Committed
  | RolledBack
  | Unhealthy
  | Failed
  deriving DecidableEq, Repr

/-- States in which a host is not in flight: the set
`{Pending, Committed, RolledBack}`. -/
def settled : HostState → Bool
  | HostState.Pending => true
  | HostState.Committed => true
  | HostState.RolledBack => true
  | _ => false

/-- The transient states a host passes through during its batch, and
its terminal state, as a function of its environment — the state-span
reading of `runHostPlay`.  A backup failure ends the host in the
`Draining` span; stop/copy/npm/start/port failures in the `Updating`
span; health-gate exhaustion after `Verifying` ends it `Unhealthy`;
otherwise the host commits. -/
def hostPhases (env : HostEnv) : List HostState × HostState :=
  if env.backupOk = false then ([HostState.Draining], HostState.Failed)
  else if env.stopOk = false then
    ([HostState.Draining, HostState.Updating], HostState.Failed)
  else if env.copyOk = false then
    ([HostState.Draining, HostState.Updating], HostState.Failed)
  else if env.npmOk = false then
    ([HostState.Draining, HostState.Updating], HostState.Failed)
  else if env.startOk = false then
    ([HostState.Draining, HostState.Updating], HostState.Failed)
  else if env.portWaitOk = false then
    ([HostState.Draining, HostState.Updating], HostState.Failed)
  else
    match healthGate env.probes with
    | some _ =>
        ([HostState.Draining, HostState.Updating, HostState.Verifying],
          HostState.Committed)
    | none =>
        ([HostState.Draining, HostState.Updating, HostState.Verifying],
          HostState.Unhealthy)

/-- `n` hosts still pending. -/
def pendings (n : Nat) : List HostState := List.replicate n HostState.Pending

/-- Snapshots of the whole fleet's states over a serial rollout, given
the terminal states `done` of the already-finished batches: while a
host is in flight every other host is either finished or pending; when
a host ends without committing the run halts with its terminal state
recorded and the rest still pending. -/
def serialSnapsGo (done : List HostState) : List HostEnv → List (List HostState)
  | [] => []
  | e :: rest =>
    let p := hostPhases e
    p.1.map (fun s => done ++ s :: pendings rest.length)
      ++ [done ++ p.2 :: pendings rest.length]
      ++ (if p.2 = HostState.Committed then
            serialSnapsGo (done ++ [p.2]) rest
          else [])

/-- All fleet snapshots of a serial rollout, the initial all-pending
snapshot included. -/
def serialSnapshots (envs : List HostEnv) : List (List HostState) :=
  pendings envs.length :: serialSnapsGo [] envs

/-- Number of hosts of a snapshot outside `{Pending, Committed,
RolledBack}`. -/
def transientCount (snap : List HostState) : Nat :=
  (snap.filter (fun s => !settled s)).length

/-! ## Disaster recovery (`disaster-recovery.yml`) -/

/-- Environment of one disaster-recovery invocation.  The play reads
`recovery_backup_path` (empty when `backup_restore_path` was not
supplied) and `stat`s the file on the control node; the stat result
also carries a size, and the file has or has not a valid archive
shape, but the play consults neither. -/
structure DREnv where
  /-- `backup_restore_path` was supplied (non-empty
  `recovery_backup_path`). -/
  pathSpecified : Bool
  /-- `stat` on the control node: the file exists. -/
  backupExists : Bool
  /-- Size of the backup file in bytes (never consulted by the play). -/
  backupSizeBytes : Nat
  /-- Whether the file is a well-formed `tar.gz` archive (never
  consulted by the play before the destructive steps). -/
  backupValidArchive : Bool
  /-- `Create current state backup before recovery` succeeds. -/
  snapshotOk : Bool
  /-- `Copy backup file to remote server` succeeds. -/
  copyOk : Bool
  /-- `Restore application from backup` (`unarchive`) succeeds. -/
  unarchiveOk : Bool
  /-- `Install/update npm dependencies` succeeds. -/
  npmOk : Bool
  /-- Status code of `GET /health` on verification attempt `i`. -/
  probes : Nat → Nat

/-- Executed steps of the disaster-recovery play, in source order. -/
inductive DRAction
  | checkSpecified
  | statBackup
  | failMissing
  | stopServices
  | snapshotAttempt
  | removeAppDir
  | recreateAppDir
  | copyToTmp
  | restoreUnarchive
  | npmInstall
  | startApp
  | startNginx
  | portWait
  | verifyProbe (attempt : Nat)
  | cleanupTmp
  | displayResults
  deriving DecidableEq, Repr

/-- Outcome of a disaster-recovery invocation. -/
inductive DROutcome
  | ConfigError
  | FailedMidway
  | Completed
  deriving DecidableEq, Repr

/-- Steps of the recovery play that stop a service or touch the
application data: `Stop all services`, `Remove current application
directory`, `Restore application from backup`, `Install/update npm
dependencies`. -/
def destructiveDR : DRAction → Bool
  | DRAction.stopServices => true
  | DRAction.removeAppDir => true
  | DRAction.restoreUnarchive => true
  | DRAction.npmInstall => true
  | _ => false

/-- The disaster-recovery play, in task order: `Check if recovery
backup is specified` (`fail` when the path is empty), `Verify backup
file exists` (`stat`), `Fail if backup file doesn't exist`, `Stop all
services` (`ignore_errors`), `Create current state backup before
recovery` (`ignore_errors` — its outcome influences nothing), `Remove
current application directory`, `Recreate application directory`,
`Copy backup file to remote server`, `Restore application from
backup`, `Install/update npm dependencies`, service starts, port wait,
`Verify recovery success` (retry loop), `Clean up temporary backup
file`, `Display recovery results`.  A failed (non-ignored) task ends
the play. -/
def runDR (env : DREnv) : List DRAction × DROutcome :=
  if env.pathSpecified = false then
    ([DRAction.checkSpecified], DROutcome.ConfigError)
  else if env.backupExists = false then
    ([DRAction.checkSpecified, DRAction.statBackup, DRAction.failMissing],
      DROutcome.ConfigError)
  else
    let pre : List DRAction :=
      [DRAction.checkSpecified, DRAction.statBackup, DRAction.stopServices,
        DRAction.snapshotAttempt, DRAction.removeAppDir, DRAction.recreateAppDir]
    if env.copyOk = false then
      (pre ++ [DRAction.copyToTmp], DROutcome.FailedMidway)
    else if env.unarchiveOk = false then
      (pre ++ [DRAction.copyToTmp, DRAction.restoreUnarchive],
        DROutcome.FailedMidway)
    else if env.npmOk = false then
      (pre ++ [DRAction.copyToTmp, DRAction.restoreUnarchive,
          DRAction.npmInstall],
        DROutcome.FailedMidway)
    else
      let body : List DRAction :=
        pre ++ [DRAction.copyToTmp, DRAction.restoreUnarchive,
          DRAction.npmInstall, DRAction.startApp, DRAction.startNginx,
          DRAction.portWait]
      let vp : List DRAction :=
        (attemptsFrom env.probes 0 (drVerifyRetries + 1)).map DRAction.verifyProbe
      match drVerifyGate env.probes with
      | some _ =>
          (body ++ vp ++ [DRAction.cleanupTmp, DRAction.displayResults],
            DROutcome.Completed)
      | none => (body ++ vp, DROutcome.FailedMidway)

/-! ## Initial deployment (`deploy.yml`, `src/unnamed/part_004`)

Only the backup-relevant span is embedded: `Stop application if
running` (`ignore_errors: yes`), `Create backup of current
application` (guarded by `backup_before_deploy | default(true)` and
`ignore_errors: yes`), then the file copies, the environment template
and `Install npm dependencies`. -/

/-- Environment of one host of the initial deployment play. -/
structure DeployEnv where
  /-- The `backup_before_deploy` variable (defaults to `true`). -/
  backupBeforeDeploy : Bool
  /-- The `archive` backup task succeeds. -/
  backupOk : Bool
  /-- The file-copy tasks succeed. -/
  copyOk : Bool

/-- Executed steps of the initial deployment play's backup span. -/
inductive DeployAction
  | stopApp
  | createBackup
  | copyAppFiles
  | copySrcDir
  | copyPublicDir
  | envTemplate
  | npmInstall
  deriving DecidableEq, Repr

/-- The backup span of the initial deployment play: the service stop
comes first; the backup is attempted only when `backup_before_deploy`
holds and, carrying `ignore_errors: yes`, its failure does not end the
play — the copies and the dependency install run regardless.  Returns
the executed actions and whether a backup was actually created. -/
def runDeploy (env : DeployEnv) : List DeployAction × Bool :=
  let pre : List DeployAction :=
    [DeployAction.stopApp]
      ++ (if env.backupBeforeDeploy then [DeployAction.createBackup] else [])
  let created : Bool := env.backupBeforeDeploy && env.backupOk
  if env.copyOk = false then (pre ++ [DeployAction.copyAppFiles], created)
  else
    (pre ++ [DeployAction.copyAppFiles, DeployAction.copySrcDir,
      DeployAction.copyPublicDir, DeployAction.envTemplate,
      DeployAction.npmInstall], created)

/-! ## Artifact content of the two restore paths

The artifact directory is a finite map from paths to contents,
represented as an association list (head entry wins).  `unarchive`
writes every archive entry into the tree, overwriting entries of the
same path; the rolling-update rollback (`Restore from backup`)
unarchives the backup over `/` without removing anything first, while
disaster recovery first removes and recreates the application
directory (`Remove current application directory` /
`Recreate application directory`) and then unarchives into the empty
tree. -/

/-- A file tree: association list from path to content. -/
abbrev FS := List (Nat × Nat)

/-- Content of the tree at a path. -/
def fsGet (fs : FS) (p : Nat) : Option Nat :=
  (fs.find? (fun e => e.1 == p)).map (fun e => e.2)

/-- Write one file, overwriting any existing entry at that path. -/
def fsSet (fs : FS) (p v : Nat) : FS :=
  (p, v) :: fs.filter (fun e => !(e.1 == p))

/-- `unarchive` an archive (a list of entries, later entries extracted
later) over an existing tree: every entry is written in order. -/
def unarchiveOver (archive : FS) (fs : FS) : FS :=
  archive.foldl (fun acc e => fsSet acc e.1 e.2) fs

/-- The rolling-update rollback restore: unarchive the backup over the
live tree, removing nothing. -/
def restoreRolling (backup : FS) (fs : FS) : FS :=
  unarchiveOver backup fs

/-- The disaster-recovery restore: the application directory is
removed and recreated empty before the backup is unarchived, so the
prior tree is discarded. -/
def restoreRecovery (backup : FS) (_fs : FS) : FS :=
  unarchiveOver backup []

/-- Content the archive itself assigns to a path: the value of its
last entry for that path, if any. -/
def lastVal : FS → Nat → Option Nat
  | [], _ => none
  | (q, v) :: t, p =>
    match lastVal t p with
    | some w => some w
    | none => if q == p then some v else none

/-! ## Concrete environments used by the witnesses and counterexamples -/

/-- A host on which every operation succeeds and `/health` answers
`200` at once. -/
def envA : HostEnv :=
  { epoch := 1000, backups := [], lbDefined := false, backupOk := true,
    stopOk := true, copyOk := true, npmOk := true, startOk := true,
    portWaitOk := true, probes := fun _ => 200, rollbackProbes := fun _ => 200 }

/-- A host whose `/health` answers `500` on every attempt after the
update; everything else succeeds. -/
def envBadHealth : HostEnv :=
  { envA with probes := fun _ => 500 }

/-- A host whose pre-update backup creation fails. -/
def envNoBackup : HostEnv :=
  { envA with backupOk := false }

/-- A 10-day-old pre-update backup: the sole — hence newest — backup
of its host. -/
def b10 : Backup := { name := BackupName.preUpdate 100, ageDays := 10 }

/-- A fresh (age 0) backup. -/
def bFresh : Backup := { name := BackupName.preUpdate 200, ageDays := 0 }

/-- A disaster-recovery invocation with an existing but empty,
malformed backup file; everything else succeeds. -/
def drEnvZeroSize : DREnv :=
  { pathSpecified := true, backupExists := true, backupSizeBytes := 0,
    backupValidArchive := false, snapshotOk := true, copyOk := true,
    unarchiveOk := true, npmOk := true, probes := fun _ => 200 }

/-- A disaster-recovery invocation whose backup path names a
non-existent file. -/
def drEnvMissing : DREnv :=
  { drEnvZeroSize with
    backupExists := false, backupSizeBytes := 4096,
    backupValidArchive := true }

/-- A disaster-recovery invocation whose pre-recovery safety snapshot
fails; everything else succeeds. -/
def drEnvSnapshotFails : DREnv :=
  { drEnvZeroSize with
    backupSizeBytes := 4096, backupValidArchive := true,
    snapshotOk := false }

/-- An initial-deployment host whose backup task fails (and is
ignored). -/
def deployEnvNoBackup : DeployEnv :=
  { backupBeforeDeploy := true, backupOk := false, copyOk := true }

/-- A backup archive holding one file: path `1`, content `10`. -/
def demoBackup : FS := [(1, 10)]

/-- The live tree after a failed update: path `1` was overwritten with
content `99` and the update introduced a new file at path `2`. -/
def demoFailedUpdate : FS := [(1, 99), (2, 77)]

/-- A service that recovers only from the seventh probe on: attempts
`0`–`5` observe `503`, attempt `6` and later observe `200`. -/
def lateRecoveryProbes : Nat → Nat := fun i => if i < 6 then 503 else 200

/-! ## Helper lemmas -/

theorem filter_settled_nil (l : List HostState) (h : ∀ x ∈ l, settled x = true) :
    l.filter (fun s => !settled s) = [] := by
  induction l with
  | nil => rfl
  | cons a t ih =>
    have ha := h a (List.mem_cons_self a t)
    rw [List.filter_cons]
    simp only [ha, Bool.not_true, Bool.false_eq_true, if_false]
    exact ih (fun x hx => h x (List.mem_cons_of_mem a hx))

theorem filter_pendings (n : Nat) :
    (pendings n).filter (fun s => !settled s) = [] := by
  apply filter_settled_nil
  intro x hx
  rw [List.eq_of_mem_replicate hx]
  rfl

theorem transientCount_shape (done : List HostState) (s : HostState) (n : Nat)
    (h : ∀ x ∈ done, settled x = true) :
    transientCount (done ++ s :: pendings n) ≤ 1 := by
  unfold transientCount
  rw [List.filter_append, filter_settled_nil done h, List.filter_cons]
  cases hs : settled s <;>
    simp [filter_pendings n]

theorem getD_replicate_none (n k : Nat) :
    (List.replicate n (none : Option HostOutcome)).getD k none = none := by
  induction n generalizing k with
  | zero => simp [List.getD]
  | succ m ih =>
    cases k with
    | zero => rfl
    | succ j =>
      rw [List.replicate_succ]
      exact ih j

theorem firstOkFrom_none (probes : Nat → Nat) :
    ∀ fuel i : Nat, (∀ k, k < fuel → probes (i + k) ≠ 200) →
      firstOkFrom probes i fuel = none := by
  intro fuel
  induction fuel with
  | zero => intro i _; rfl
  | succ f ih =>
    intro i h
    unfold firstOkFrom
    have h0 : probes i ≠ 200 := by
      have hz := h 0 (Nat.succ_pos f)
      rw [Nat.add_zero] at hz
      exact hz
    rw [if_neg h0]
    refine ih (i + 1) (fun k hk => ?_)
    have heq : i + 1 + k = i + (k + 1) := by omega
    rw [heq]
    exact h (k + 1) (by omega)

theorem firstOkFrom_some (probes : Nat → Nat) :
    ∀ fuel i j : Nat, i ≤ j → j < i + fuel → probes j = 200 →
      (∀ k, i ≤ k → k < j → probes k ≠ 200) →
      firstOkFrom probes i fuel = some j := by
  intro fuel
  induction fuel with
  | zero => intro i j h1 h2 _ _; omega
  | succ f ih =>
    intro i j h1 h2 h3 h4
    unfold firstOkFrom
    by_cases hij : i = j
    · subst hij
      rw [if_pos h3]
    · have hne : probes i ≠ 200 := h4 i (Nat.le_refl i) (by omega)
      rw [if_neg hne]
      exact ih (i + 1) j (by omega) (by omega) h3
        (fun k hk1 hk2 => h4 k (by omega) hk2)

theorem find?_filter_ne (fs : FS) (p q : Nat) (h : p ≠ q) :
    (fs.filter (fun e => !(e.1 == p))).find? (fun e => e.1 == q) =
      fs.find? (fun e => e.1 == q) := by
  induction fs with
  | nil => rfl
  | cons a t ih =>
    by_cases h1 : a.1 = p
    · have hq : (a.1 == q) = false := by
        simp [h1]
        omega
      rw [List.filter_cons]
      simp only [h1, beq_self_eq_true, Bool.not_true, Bool.false_eq_true, if_false]
      rw [ih, List.find?]
      rw [hq]
    · rw [List.filter_cons]
      have h1b : (a.1 == p) = false := by simp [h1]
      simp only [h1b, Bool.not_false, if_true]
      rw [List.find?, List.find?]
      cases h2 : (a.1 == q) with
      | true => rfl
      | false => exact ih

theorem fsGet_fsSet (fs : FS) (p v q : Nat) :
    fsGet (fsSet fs p v) q = if p = q then some v else fsGet fs q := by
  unfold fsGet fsSet
  by_cases hpq : p = q
  · subst hpq
    rw [if_pos rfl, List.find?]
    simp
  · rw [if_neg hpq, List.find?]
    have hb : (p == q) = false := by simp [hpq]
    rw [hb]
    rw [find?_filter_ne fs p q hpq]

theorem fsGet_unarchiveOver (a : FS) :
    ∀ (fs : FS) (p : Nat),
      fsGet (unarchiveOver a fs) p =
        match lastVal a p with
        | some v => some v
        | none => fsGet fs p := by
  induction a with
  | nil => intro fs p; rfl
  | cons e t ih =>
    intro fs p
    obtain ⟨q, v⟩ := e
    show fsGet (unarchiveOver t (fsSet fs q v)) p = _
    rw [ih]
    cases hlv : lastVal t p with
    | some w => simp [lastVal, hlv]
    | none =>
      simp only [lastVal, hlv]
      rw [fsGet_fsSet]
      by_cases hqp : q = p
      · subst hqp
        simp
      · have hb : (q == p) = false := by simp [hqp]
        rw [if_neg hqp, hb]
        simp

theorem runHostPlay_cases (env : HostEnv) :
    ((runHostPlay env).outcome = HostOutcome.Committed ∧
      Action.cleanupFind ∈ (runHostPlay env).trace) ∨
    ((runHostPlay env).outcome ≠ HostOutcome.Committed ∧
      Action.cleanupFind ∉ (runHostPlay env).trace) := by
  have hrm : Action.cleanupFind ∉ (if env.lbDefined then [Action.lbRemove] else []) := by
    split <;> decide
  have hadd : Action.cleanupFind ∉ (if env.lbDefined then [Action.lbAdd] else []) := by
    split <;> decide
  unfold runHostPlay
  repeat' split
  all_goals
    first
      | (left; exact ⟨rfl, by simp [hrm, hadd, handlerFlush, rollingNotified]⟩)
      | (right; exact ⟨by simp, by simp [hrm, hadd]⟩)

theorem cleanup_only_committed (env : HostEnv)
    (h : Action.cleanupFind ∈ (runHostPlay env).trace) :
    (runHostPlay env).outcome = HostOutcome.Committed := by
  rcases runHostPlay_cases env with ⟨hc, _⟩ | ⟨_, hn⟩
  · exact hc
  · exact absurd h hn

theorem serialSnapsGo_transient (envs : List HostEnv) :
    ∀ done : List HostState, (∀ x ∈ done, settled x = true) →
      ∀ snap ∈ serialSnapsGo done envs, transientCount snap ≤ 1 := by
  induction envs with
  | nil =>
    intro done _ snap hs
    simp [serialSnapsGo] at hs
  | cons e rest ih =>
    intro done hd snap hs
    unfold serialSnapsGo at hs
    simp only [List.mem_append, List.mem_map, List.mem_singleton] at hs
    rcases hs with (⟨s, _, rfl⟩ | rfl) | hs2
    · exact transientCount_shape done s rest.length hd
    · exact transientCount_shape done (hostPhases e).2 rest.length hd
    · by_cases hcom : (hostPhases e).2 = HostState.Committed
      · rw [if_pos hcom] at hs2
        refine ih (done ++ [(hostPhases e).2]) ?_ snap hs2
        intro x hx
        rcases List.mem_append.mp hx with hx | hx
        · exact hd x hx
        · rw [List.mem_singleton] at hx
          rw [hx, hcom]
          rfl
      · rw [if_neg hcom] at hs2
        simp at hs2

theorem serialOutcomes_halt (envs : List HostEnv) :
    ∀ i j : Nat, i < j →
      (serialOutcomes envs).getD i none ≠ some HostOutcome.Committed →
      (serialOutcomes envs).getD j none = none := by
  induction envs with
  | nil =>
    intro i j _ _
    simp [serialOutcomes, List.getD]
  | cons e rest ih =>
    intro i j hij hi
    simp only [serialOutcomes] at hi ⊢
    by_cases hcom : (runHostPlay e).outcome = HostOutcome.Committed
    · rw [if_pos hcom] at hi ⊢
      cases i with
      | zero => simp [List.getD] at hi
      | succ i2 =>
        cases j with
        | zero => omega
        | succ j2 =>
          exact ih i2 j2 (by omega) hi
    · rw [if_neg hcom] at hi ⊢
      cases j with
      | zero => omega
      | succ j2 =>
        exact getD_replicate_none rest.length j2

/-! ## Claims -/

/-- C1: the claim says a host failing the post-update health gate is
automatically restored from its pre-update backup and marked
RolledBack.  On the code this cannot happen: no task of
`rolling-update.yml` carries a `notify:` key, so the `rollback on
failure` handler is never notified (and a failed host does not flush
handlers anyway).  On a host whose `/health` returns `500` on all
attempts, the play leaves the host failed-unhealthy: no restore action
is ever executed — even though the handler block itself, were it ever
flushed, would perform the restore.  The host does at least never end
Committed. -/
theorem c1_rollback_handler_never_runs :
    rollingNotified = [] ∧
    (runHostPlay envBadHealth).outcome = HostOutcome.Unhealthy ∧
    Action.rollbackRestore ∉ (runHostPlay envBadHealth).trace ∧
    (runHostPlay envBadHealth).outcome ≠ HostOutcome.Committed ∧
    Action.rollbackRestore ∈ handlerFlush ["rollback on failure"] envBadHealth := by
  decide

/-- C2 counterexample: a host whose only — hence newest — backup is 10
days old.  The sweep deletes it: the newest backup is not kept, and
zero restore points remain. -/
theorem c2_counterexample :
    newestBackup [b10] = some b10 ∧ removeOldBackups [b10] = [] := by
  decide

/-- C2 amended: the sweep keeps exactly the files that do not match
the `nodejs-ansible-deploy-*.tar.gz` pattern or are younger than the
7-day policy age.  There is no newest-backup exception: a host all of
whose backups are old is left with none. -/
theorem c2_amended (bs : List Backup) (b : Backup) :
    b ∈ removeOldBackups bs ↔
      b ∈ bs ∧ (matchesBackupPattern b.name = false ∨
        b.ageDays < retentionAgeDays) := by
  unfold removeOldBackups findOldBackups
  rw [List.mem_filter]
  simp only [decide_eq_true_eq]
  constructor
  · rintro ⟨hb, hno⟩
    refine ⟨hb, ?_⟩
    cases hp : matchesBackupPattern b.name with
    | false => exact Or.inl rfl
    | true =>
      right
      by_contra hage
      refine hno (List.mem_filter.mpr ⟨hb, ?_⟩)
      unfold oldBackup
      rw [hp]
      simp only [Bool.true_and, decide_eq_true_eq]
      omega
  · rintro ⟨hb, hcase⟩
    refine ⟨hb, fun hmem => ?_⟩
    have hold := (List.mem_filter.mp hmem).2
    unfold oldBackup at hold
    rcases hcase with hp | hage
    · rw [hp] at hold
      simp at hold
    · simp only [Bool.and_eq_true, decide_eq_true_eq] at hold
      omega

/-- C2 witness: a fresh backup survives the sweep. -/
theorem c2_amended_witness : bFresh ∈ removeOldBackups [bFresh] :=
  (c2_amended [bFresh] bFresh).mpr ⟨List.mem_singleton.mpr rfl, Or.inr (by decide)⟩

/-- C3 counterexample: on the initial deployment play, with the backup
task failing (its failure is ignored), no backup is created, yet the
destructive file copies and the dependency install still run — and the
service stop precedes the backup attempt in the executed order. -/
theorem c3_counterexample :
    (runDeploy deployEnvNoBackup).2 = false ∧
    DeployAction.copyAppFiles ∈ (runDeploy deployEnvNoBackup).1 ∧
    DeployAction.npmInstall ∈ (runDeploy deployEnvNoBackup).1 ∧
    (runDeploy deployEnvNoBackup).1.take 1 = [DeployAction.stopApp] ∧
    DeployAction.createBackup ∉ (runDeploy deployEnvNoBackup).1.take 1 := by
  decide

/-- C3 amended: in the rolling-update play the claim holds — the
backup task is the very first executed action, so it precedes every
destructive step, and because it has no `ignore_errors`, its failure
ends the host's play with no further action executed and the host
failed. -/
theorem c3_amended (env : HostEnv) :
    (runHostPlay env).trace.head? = some Action.createBackup ∧
    (env.backupOk = false →
      (runHostPlay env).trace = [Action.createBackup] ∧
      (runHostPlay env).outcome = HostOutcome.Failed) := by
  constructor
  · unfold runHostPlay
    repeat' split
    all_goals rfl
  · intro h
    unfold runHostPlay
    rw [if_pos h]
    exact ⟨rfl, rfl⟩

/-- C3 witness: the rolling-update host whose backup fails executes
nothing else. -/
theorem c3_amended_witness :
    (runHostPlay envNoBackup).trace = [Action.createBackup] ∧
    (runHostPlay envNoBackup).outcome = HostOutcome.Failed :=
  (c3_amended envNoBackup).2 rfl

/-- C4: under `serial: 1`, every snapshot of the rollout has at most
one host outside `{Pending, Committed, RolledBack}`, and once a host's
batch ends in anything but Committed, every later host never starts
(its outcome stays `none`, i.e. Pending). -/
theorem c4_serial_one_in_flight (envs : List HostEnv) :
    (∀ snap ∈ serialSnapshots envs, transientCount snap ≤ 1) ∧
    (∀ i j : Nat, i < j →
      (serialOutcomes envs).getD i none ≠ some HostOutcome.Committed →
      (serialOutcomes envs).getD j none = none) := by
  constructor
  · intro snap hs
    rcases List.mem_cons.mp hs with rfl | hs
    · unfold transientCount
      rw [filter_pendings]
      simp
    · exact serialSnapsGo_transient envs [] (by intro x hx; simp at hx) snap hs
  · exact serialOutcomes_halt envs

/-- C4 witness: scenario B — three hosts, the second fails its health
gate; in flight never exceeds one, and host 3 never starts. -/
theorem c4_witness :
    transientCount (pendings 3) ≤ 1 ∧
    (serialOutcomes [envA, envBadHealth, envA]).getD 2 none = none :=
  ⟨(c4_serial_one_in_flight [envA, envBadHealth, envA]).1 (pendings 3) (by decide),
   (c4_serial_one_in_flight [envA, envBadHealth, envA]).2 1 2 (by decide) (by decide)⟩

/-- C5 counterexample: a disaster-recovery invocation whose backup
file exists but is empty (zero bytes) and is not a valid archive.  The
claim says integrity — existence, non-zero size, archive shape — is
validated before any destructive action; the play checks only
existence, so it proceeds to stop the services and wipe the
application directory. -/
theorem c5_counterexample :
    drEnvZeroSize.backupSizeBytes = 0 ∧
    drEnvZeroSize.backupValidArchive = false ∧
    DRAction.stopServices ∈ (runDR drEnvZeroSize).1 ∧
    DRAction.removeAppDir ∈ (runDR drEnvZeroSize).1 := by
  decide

/-- C5 amended: the pre-destruction validation is only that a backup
path was supplied and that the file exists; whenever either check
fails, the play fails immediately with its configuration-error `fail`
message, before any destructive action (no service stopped, no data
touched). -/
theorem c5_amended (env : DREnv)
    (h : env.pathSpecified = false ∨ env.backupExists = false) :
    (runDR env).2 = DROutcome.ConfigError ∧
    (runDR env).1.all (fun a => !destructiveDR a) = true := by
  rcases h with h | h
  · unfold runDR
    rw [if_pos h]
    exact ⟨rfl, rfl⟩
  · unfold runDR
    by_cases hs : env.pathSpecified = false
    · rw [if_pos hs]
      exact ⟨rfl, rfl⟩
    · rw [if_neg hs, if_pos h]
      exact ⟨rfl, rfl⟩

/-- C5 witness: recovery invoked on a non-existent backup path fails
closed with nothing destructive executed. -/
theorem c5_amended_witness :
    (runDR drEnvMissing).2 = DROutcome.ConfigError ∧
    (runDR drEnvMissing).1.all (fun a => !destructiveDR a) = true :=
  c5_amended drEnvMissing (Or.inr rfl)

/-- C6 counterexample: the rolling-update rollback restore is not a
full overwrite.  The backup holds only file `1`; the failed update
left a new file at path `2` with content `77`.  After the rollback
restore that file is still there, unlike after the disaster-recovery
restore, which wipes the directory first. -/
theorem c6_counterexample :
    fsGet (restoreRolling demoBackup demoFailedUpdate) 2 = some 77 ∧
    fsGet demoBackup 2 = none ∧
    fsGet (restoreRecovery demoBackup demoFailedUpdate) 2 = none := by
  decide

/-- C6 amended: both restore paths are idempotent — a second restore
of the same backup changes no path's content — but only the
disaster-recovery path is a full overwrite.  The rollback path merges:
at every path the backup does not mention, the pre-restore content
survives. -/
theorem c6_amended (b fs : FS) (p : Nat) :
    fsGet (restoreRolling b (restoreRolling b fs)) p =
      fsGet (restoreRolling b fs) p ∧
    fsGet (restoreRecovery b (restoreRecovery b fs)) p =
      fsGet (restoreRecovery b fs) p ∧
    (lastVal b p = none →
      fsGet (restoreRolling b fs) p = fsGet fs p) := by
  refine ⟨?_, rfl, ?_⟩
  · unfold restoreRolling
    rw [fsGet_unarchiveOver, fsGet_unarchiveOver]
    cases hlv : lastVal b p with
    | some w => rfl
    | none => rfl
  · intro h
    unfold restoreRolling
    rw [fsGet_unarchiveOver, h]

/-- C6 witness: a path the backup does not mention keeps its content
across the rollback restore. -/
theorem c6_amended_witness :
    fsGet (restoreRolling demoBackup demoFailedUpdate) 2 =
      fsGet demoFailedUpdate 2 :=
  (c6_amended demoBackup demoFailedUpdate 2).2.2 rfl

/-- C7 counterexample: with two healthy hosts under `serial: 1`, host
0's retention sweep (`cleanupFind`) appears in the global trace before
host 1 executes anything — the sweep runs mid-rollout, not only after
the whole deployment reached a terminal state. -/
theorem c7_counterexample :
    (0, Action.cleanupFind) ∈ (runSerialTrace [envA, envA]).take 11 ∧
    (1, Action.createBackup) ∉ (runSerialTrace [envA, envA]).take 11 ∧
    (1, Action.createBackup) ∈ runSerialTrace [envA, envA] := by
  decide

/-- C7 amended: the sweep runs once per serial batch, at the end of
that host's own play: whenever the global trace contains host `i`'s
`cleanupFind`, host `i`'s own batch committed — but later hosts may
still be pending at that point, so the sweep does run mid-rollout.
Because each sweep only runs on the batch's host, it touches only that
host's local backup directory. -/
theorem c7_amended (envs : List HostEnv) (i : Nat)
    (h : (i, Action.cleanupFind) ∈ runSerialTrace envs) :
    (serialOutcomes envs).getD i none = some HostOutcome.Committed := by
  induction envs generalizing i with
  | nil => simp [runSerialTrace, serialTraceGo] at h
  | cons e rest ih =>
    simp only [runSerialTrace, serialTraceGo, List.mem_append, List.mem_map] at h
    rcases h with ⟨a, ha, heq⟩ | h2
    · injection heq with h0 hA
      subst hA
      have hc := cleanup_only_committed e ha
      cases h0
      simp [serialOutcomes, hc, List.getD]
    · by_cases hcom : (runHostPlay e).outcome = HostOutcome.Committed
      · rw [if_pos hcom] at h2
        rw [List.mem_map] at h2
        obtain ⟨x, hx, hxe⟩ := h2
        obtain ⟨x1, x2⟩ := x
        injection hxe with he1 he2
        subst he2
        cases i with
        | zero => omega
        | succ i2 =>
          have hx1 : x1 = i2 := by omega
          subst hx1
          simp only [serialOutcomes, if_pos hcom, List.getD_cons_succ]
          exact ih _ hx
      · rw [if_neg hcom] at h2
        simp at h2

/-- C7 witness: after a one-host rollout whose sweep ran, that host
committed. -/
theorem c7_amended_witness :
    (serialOutcomes [envA]).getD 0 none = some HostOutcome.Committed :=
  c7_amended [envA] 0 (by decide)

/-- C8 counterexample: the health gate's success condition is
`status == 200`, not "any 2xx": a service answering `201` — a 2xx
status — on every attempt is still classified Unhealthy. -/
theorem c8_counterexample :
    healthGate (fun _ => 201) = none ∧ 200 ≤ 201 ∧ 201 < 300 := by
  decide

/-- C8 amended: the gate makes a fixed `1 + health_check_retries`
attempts separated by the fixed `health_check_delay` (no backoff); the
first response with status exactly `200` short-circuits to success at
that attempt, and exhausting the budget without a `200` classifies the
host Unhealthy. -/
theorem c8_amended (probes : Nat → Nat) :
    (∀ k : Nat, healthCheckDelaySchedule k = 30) ∧
    ((∀ k, k < healthCheckRetries + 1 → probes k ≠ 200) →
      healthGate probes = none) ∧
    (∀ j, j < healthCheckRetries + 1 → probes j = 200 →
      (∀ k, k < j → probes k ≠ 200) → healthGate probes = some j) := by
  refine ⟨fun _ => rfl, ?_, ?_⟩
  · intro h
    unfold healthGate
    refine firstOkFrom_none probes (healthCheckRetries + 1) 0 (fun k hk => ?_)
    rw [Nat.zero_add]
    exact h k hk
  · intro j hj h200 hbefore
    unfold healthGate
    exact firstOkFrom_some probes (healthCheckRetries + 1) 0 j (Nat.zero_le j)
      (by omega) h200 (fun k _ hk2 => hbefore k hk2)

/-- C8 witness: a host answering `500` forever exhausts the budget;
one recovering at attempt 6 passes there and then. -/
theorem c8_amended_witness :
    healthGate (fun _ => 500) = none ∧
    healthGate lateRecoveryProbes = some 6 :=
  ⟨(c8_amended (fun _ => 500)).2.1 (fun k _ => by decide),
   (c8_amended lateRecoveryProbes).2.2 6 (by decide) (by decide)
     (fun k hk => by
       simp only [lateRecoveryProbes]
       rw [if_pos hk]
       omega)⟩

/-- C9 counterexample: the post-rollback verification does not re-use
the forward gate's budget — its task declares `retries: 5` and
`delay: 10` against the forward `health_check_retries: 10`,
`health_check_delay: 30`. -/
theorem c9_counterexample :
    (rollbackVerifyRetries, rollbackVerifyDelay) ≠
      (healthCheckRetries, healthCheckDelay) := by
  decide

/-- C9 amended: the rollback verification has its own, strictly
smaller budget — 5 retries at a 10-second fixed delay versus the
forward gate's 10 at 30 — so a service that only recovers from the
seventh probe on passes the forward gate but exhausts the rollback
verification budget. -/
theorem c9_amended :
    rollbackVerifyRetries < healthCheckRetries ∧
    rollbackVerifyDelay < healthCheckDelay ∧
    healthGate lateRecoveryProbes = some 6 ∧
    rollbackVerifyGate lateRecoveryProbes = none := by
  decide

/-- C10: the pre-recovery safety snapshot's outcome influences nothing
(`ignore_errors: yes`): the whole run is literally independent of it,
and with a valid invocation whose snapshot fails, the play still
proceeds to remove the application directory and restore from the
supplied backup. -/
theorem c10_snapshot_ignored :
    (∀ (env : DREnv) (b : Bool), runDR { env with snapshotOk := b } = runDR env) ∧
    (∀ env : DREnv, env.pathSpecified = true → env.backupExists = true →
      env.snapshotOk = false → env.copyOk = true →
      DRAction.snapshotAttempt ∈ (runDR env).1 ∧
      DRAction.removeAppDir ∈ (runDR env).1 ∧
      DRAction.restoreUnarchive ∈ (runDR env).1) := by
  constructor
  · intro env b
    rfl
  · intro env h1 h2 _ h4
    unfold runDR
    rw [if_neg (by simp [h1]), if_neg (by simp [h2]), if_neg (by simp [h4])]
    repeat' split
    all_goals exact ⟨by simp, by simp, by simp⟩

/-- C10 witness: a concrete recovery whose snapshot fails still wipes
and restores. -/
theorem c10_witness :
    DRAction.snapshotAttempt ∈ (runDR drEnvSnapshotFails).1 ∧
    DRAction.removeAppDir ∈ (runDR drEnvSnapshotFails).1 ∧
    DRAction.restoreUnarchive ∈ (runDR drEnvSnapshotFails).1 :=
  c10_snapshot_ignored.2 drEnvSnapshotFails rfl rfl rfl rfl

end NodeDeploy
